import Mathlib

/-
Verification development for the bookmap backend (src/app.py).
The Flask handlers are embedded as pure Lean functions over a JSON value
type; the document store is a list of documents, external collaborators
(Cloudinary uploader, filename sanitizer, clock) are explicit parameters
or oracles, and a raised-and-uncaught Python exception is an Except error.
-/

/-- JSON-like values as stored in the document database and handled by the
handlers of app.py.  Numbers are modelled exactly by rationals; a Python
dict is an ordered association list with unique keys. -/
inductive Json where
  | null
  | bool (b : Bool)
  | num (q : Rat)
  | str (s : String)
  | arr (elems : List Json)
  | obj (fields : List (String × Json))

/-- Lookup in a Python dict: the first binding for the key. -/
def dget : List (String × Json) → String → Option Json
  | [], _ => none
  | (k, v) :: t, key => if k == key then some v else dget t key

/-- Python dict item assignment: replace the binding in place, else append. -/
def dset : List (String × Json) → String → Json → List (String × Json)
  | [], key, v => [(key, v)]
  | (k, w) :: t, key, v => if k == key then (k, v) :: t else (k, w) :: dset t key v

/-- Subscripting x[key] with a string key inside a try block: it succeeds
exactly on dicts holding the key; any other shape raises (KeyError or
TypeError), which the callers in app.py treat as failure. -/
def jget : Json → String → Option Json
  | .obj fs, key => dget fs key
  | _, _ => none

/-- Python d.get(key): None when the key is absent. -/
def pyGet (fs : List (String × Json)) (key : String) : Json :=
  (dget fs key).getD .null

/-- Python truthiness of a JSON-like value. -/
def jsonTruthy : Json → Bool
  | .null => false
  | .bool b => b
  | .num q => !(q == 0)
  | .str s => !s.data.isEmpty
  | .arr l => !l.isEmpty
  | .obj fs => !fs.isEmpty

/-- An HTTP response: status code and JSON body. -/
structure Resp where
  status : Nat
  body : Json

/-- Body jsonify(error = m) used by the 400 branches. -/
def errBody (m : String) : Json := .obj [("error", .str m)]

/-- Body jsonify(status = success) used by the 201 branches. -/
def okBody : Json := .obj [("status", .str "success")]

/-- The fixed required-field list of both ingestion endpoints (app.py lines
135 and 158). -/
def requiredFields : List String := ["title", "author", "locations"]

/-- The loop for field in required: if field not in data: return ... ;
the first field, in the fixed order, that is not a key of data. -/
def firstMissing (data : List (String × Json)) : Option String :=
  requiredFields.find? (fun f => (dget data f).isNone)

/-- Result of the JSON ingestion endpoint: the response and the document
inserted into the books collection, if any. -/
structure JRes where
  resp : Resp
  inserted : Option Json

/-- Handler add_book_json (POST /api/book, app.py lines 131-141), applied to
the parsed request body (request.json or the empty dict). -/
def add_book_json (data : List (String × Json)) : JRes :=
  match firstMissing data with
  | some f => ⟨⟨400, errBody (f ++ " is required")⟩, none⟩
  | none => ⟨⟨201, okBody⟩, some (.obj data)⟩

/-- State of the form field data of a multipart request: absent or falsy,
present but not parseable by json.loads, or parsed to a dict. -/
inductive Payload where
  | missing
  | invalid
  | parsed (data : List (String × Json))

/-- Oracle for the single cloudinary.uploader.upload call: it either raises
or returns a result dict. -/
inductive UploadOutcome where
  | raised
  | ok (res : List (String × Json))

/-- Options passed to cloudinary.uploader.upload (app.py lines 173-179). -/
structure UploadOpts where
  folder : String
  resource_type : String
  use_filename : Bool
  unique_filename : Bool
  deriving DecidableEq

/-- The options the handler passes to the remote uploader: folder
bookmap/pdfs, resource_type raw, use_filename True, unique_filename False. -/
def cloudinaryOpts : UploadOpts := ⟨"bookmap/pdfs", "raw", true, false⟩

/-- A multipart request to /api/book-with-pdf: the payload state, the
filename of the pdf_file part (none when the part is absent), and the
outcome the remote uploader would produce if called. -/
structure MPReq where
  payload : Payload
  file : Option String
  upload : UploadOutcome

/-- Observable result of the multipart handler: response, inserted document,
the remote call made (with its options) if any, how many remote attempts
were made, and the filename written to the local upload directory if any. -/
structure MPRes where
  resp : Resp
  inserted : Option Json
  remoteCall : Option UploadOpts
  remoteAttempts : Nat
  localSaved : Option String

/-- Suffix of the filename after its last dot, when the filename contains a
dot: filename.rsplit(".", 1)[1] guarded by "." in filename. -/
def extAfterLastDot : List Char → Option (List Char) → Option (List Char)
  | [], acc => acc
  | '.' :: t, _ => extAfterLastDot t (some t)
  | _ :: t, acc => extAfterLastDot t acc

/-- Function allowed_file (app.py lines 58-59): the filename contains a dot
and the part after the last dot, lowercased, is pdf. -/
def allowed_file (filename : String) : Bool :=
  match extAfterLastDot filename.data none with
  | some ext => ext.map Char.toLower == "pdf".data
  | none => false

/-- The f-string prefixing the sanitized name with the timestamp in the
local fallback (app.py line 186). -/
def fstr (ts safe : String) : String := ⟨ts.data ++ '_' :: safe.data⟩

/-- Tail of the multipart handler from line 191: attach pdf_file when
pdf_url is truthy, insert, respond 201. -/
def finishInsert (data : List (String × Json)) (pdfUrl : Option Json)
    (rc : Option UploadOpts) (ra : Nat) (ls : Option String) : MPRes :=
  match pdfUrl with
  | some v =>
    if jsonTruthy v then
      ⟨⟨201, okBody⟩, some (.obj (dset data "pdf_file" v)), rc, ra, ls⟩
    else
      ⟨⟨201, okBody⟩, some (.obj data), rc, ra, ls⟩
  | none => ⟨⟨201, okBody⟩, some (.obj data), rc, ra, ls⟩

/-- Handler add_book_with_pdf (POST /api/book-with-pdf, app.py lines
147-196).  The sanitizer secure_filename and the current timestamp are
parameters; the remote uploader is the oracle carried by the request. -/
def add_book_with_pdf (secure : String → String) (now : String) (req : MPReq) : MPRes :=
  match req.payload with
  | .missing => ⟨⟨400, errBody "Missing book data payload"⟩, none, none, 0, none⟩
  | .invalid => ⟨⟨400, errBody "Invalid JSON in data"⟩, none, none, 0, none⟩
  | .parsed data =>
    match firstMissing data with
    | some f => ⟨⟨400, errBody (f ++ " is required")⟩, none, none, 0, none⟩
    | none =>
      match req.file with
      | none => finishInsert data none none 0 none
      | some fn =>
        if fn == "" then finishInsert data none none 0 none
        else if allowed_file fn then
          match req.upload with
          | .raised =>
            finishInsert data (some (.str (fstr now (secure fn))))
              (some cloudinaryOpts) 1 (some (fstr now (secure fn)))
          | .ok res =>
            finishInsert data (dget res "secure_url") (some cloudinaryOpts) 1 none
        else ⟨⟨400, errBody "Only PDF allowed"⟩, none, none, 0, none⟩

/-- Python iteration over a JSON-like value: lists yield their elements,
strings their characters, dicts their keys; other values raise TypeError. -/
def jIter : Json → Option (List Json)
  | .arr l => some l
  | .str s => some (s.data.map (fun c => Json.str ⟨[c]⟩))
  | .obj fs => some (fs.map (fun p => Json.str p.1))
  | _ => none

/-- Python tuple unpacking a, b = x: succeeds exactly when x iterates to
exactly two items. -/
def unpack2 (j : Json) : Option (Json × Json) :=
  match jIter j with
  | some [a, b] => some (a, b)
  | _ => none

/-- Body of the per-entry try block of normalize_locations (app.py lines
205-212): lng, lat = loc["geo"]["coordinates"] then build the record; any
exception is caught by the bare except and yields no record. -/
def normLoc : Json → Option Json
  | .obj lfs =>
    match dget lfs "geo" with
    | some g =>
      match jget g "coordinates" with
      | some c =>
        match unpack2 c with
        | some (lng, lat) =>
          some (.obj [("lat", lat), ("lng", lng),
                      ("place_name", pyGet lfs "place_name"),
                      ("country", pyGet lfs "country")])
        | none => none
      | none => none
    | none => none
  | _ => none

/-- The accumulation loop of normalize_locations: out.append per entry. -/
def normLoop : List Json → List Json → List Json
  | [], out => out
  | l :: t, out => normLoop t (out ++ (normLoc l).toList)

/-- Function normalize_locations (app.py lines 202-215).  It raises
(uncaught) when doc is not a dict, or when doc.get("locations", []) is a
value the for loop cannot iterate. -/
def normalize_locations : Json → Except Unit (List Json)
  | .obj fs =>
    match jIter ((dget fs "locations").getD (.arr [])) with
    | some ls => .ok (normLoop ls [])
    | none => .error ()
  | _ => .error ()

/-- Summary projection built by both query endpoints (app.py lines 246-257
and 285-296).  str(doc["_id"]) raises KeyError when _id is absent; the
stringification of the stored id is modelled as the stored value itself,
since no claim inspects its rendering. -/
def project (doc : Json) : Except Unit Json :=
  match doc with
  | .obj fs =>
    match dget fs "_id" with
    | some idv =>
      match normalize_locations doc with
      | .ok ls =>
        .ok (.obj [("id", idv), ("title", pyGet fs "title"),
                   ("author", pyGet fs "author"), ("year", pyGet fs "year"),
                   ("description", pyGet fs "description"),
                   ("tags", (dget fs "tags").getD (.arr [])),
                   ("category", pyGet fs "category"),
                   ("cover_url", pyGet fs "cover_url"),
                   ("pdf_file", pyGet fs "pdf_file"),
                   ("locations", .arr ls)])
      | .error e => .error e
    | none => .error ()
  | _ => .error ()

/-- Mapping a fallible projection over the selected documents; the first
raised exception aborts the handler. -/
def mapE (f : Json → Except Unit Json) : List Json → Except Unit (List Json)
  | [] => .ok []
  | a :: t =>
    match f a with
    | .ok b =>
      match mapE f t with
      | .ok bs => .ok (b :: bs)
      | .error e => .error e
    | .error e => .error e

/-- Characters Python str.strip removes (ASCII whitespace). -/
def isPyWS (c : Char) : Bool :=
  c == ' ' || c == '\t' || c == '\n' || c == '\r' || c == '\x0b' || c == '\x0c'

/-- Python str.strip(). -/
def pyStrip (s : String) : String :=
  ⟨((s.data.dropWhile isPyWS).reverse.dropWhile isPyWS).reverse⟩

/-- One step of the model of the document store's case-insensitive regex
test: does the pattern match at the head of the text?  The model covers the
pattern fragment this development reasons about: literal characters and the
any-character metacharacter dot, matched unanchored with option i.  The
search endpoint passes the raw query string as the pattern (app.py lines
273-277), so a dot in the query is a wildcard, not a literal. -/
def matchHere : List Char → List Char → Bool
  | [], _ => true
  | _ :: _, [] => false
  | p :: ps, c :: cs => (p == '.' || p.toLower == c.toLower) && matchHere ps cs

/-- Unanchored scan of the regex test over every suffix of the text. -/
def reSearch (p : List Char) : List Char → Bool
  | [] => matchHere p []
  | c :: ts => matchHere p (c :: ts) || reSearch p ts

/-- The store's case-insensitive regex test on strings. -/
def reTest (pat text : String) : Bool := reSearch pat.data text.data

/-- One clause field: regex of the search query: a string field is tested
directly, an array field matches when some string element does, any other
shape (absent field included) does not match. -/
def fieldRe (pat : String) : Option Json → Bool
  | some (.str t) => reTest pat t
  | some (.arr xs) => xs.any (fun x => match x with | .str t => reTest pat t | _ => false)
  | _ => false

/-- The or-query built by search_books (app.py lines 271-279) evaluated on
one stored document. -/
def codeMatch (pat : String) (doc : Json) : Bool :=
  match doc with
  | .obj fs =>
    fieldRe pat (dget fs "title") || fieldRe pat (dget fs "author") ||
    fieldRe pat (dget fs "tags") || fieldRe pat (dget fs "category") ||
    fieldRe pat (dget fs "description")
  | _ => false

/-- Result of a query endpoint: the response (error means an uncaught
exception), the documents the store query selected, and whether a store
query was executed at all. -/
structure QueryRes where
  resp : Except Unit Resp
  selected : List Json
  queried : Bool

/-- Handler search_books (GET /api/search, app.py lines 265-298) over a
store holding the list db of documents in its return order. -/
def search_books (q : Option String) (db : List Json) : QueryRes :=
  let qs := pyStrip (q.getD "")
  if qs == "" then ⟨.ok ⟨200, .obj [("books", .arr [])]⟩, [], false⟩
  else
    match mapE project ((db.filter (codeMatch qs)).take 150) with
    | .ok bs => ⟨.ok ⟨200, .obj [("books", .arr bs)]⟩, (db.filter (codeMatch qs)).take 150, true⟩
    | .error e => ⟨.error e, (db.filter (codeMatch qs)).take 150, true⟩

/-- A Python float value: finite (exact rational), infinities, or nan. -/
inductive PFloat where
  | finite (q : Rat)
  | inf
  | ninf
  | nan
  deriving DecidableEq

/-- Negation of a Python float. -/
def PFloat.neg : PFloat → PFloat
  | .finite q => .finite (-q)
  | .inf => .ninf
  | .ninf => .inf
  | .nan => .nan

/-- Underscore validation and removal for Python numeric literals: each
underscore must sit between two digits. -/
def deU : List Char → Bool → Option (List Char)
  | [], _ => some []
  | '_' :: c :: rest, true =>
    if c.isDigit then (deU rest c.isDigit).map (fun l => c :: l) else none
  | '_' :: _, _ => none
  | c :: rest, _ => (deU rest c.isDigit).map (fun l => c :: l)

/-- Numeric value of a digit string. -/
def natOfDigits (l : List Char) : Nat :=
  l.foldl (fun a c => a * 10 + (c.toNat - 48)) 0

/-- Ten to an integer power as an exact rational. -/
def tenPowN : Nat → Rat
  | 0 => 1
  | n + 1 => 10 * tenPowN n

/-- Ten to an integer power, negative exponents via inverse. -/
def tenPow (e : Int) : Rat :=
  if 0 ≤ e then tenPowN e.toNat else (tenPowN (-e).toNat)⁻¹

/-- Exponent part: optional sign then a nonempty digit string. -/
def expVal (l : List Char) : Option Int :=
  match l with
  | '+' :: t => if !t.isEmpty && t.all Char.isDigit then some ((natOfDigits t : Nat) : Int) else none
  | '-' :: t => if !t.isEmpty && t.all Char.isDigit then some (-((natOfDigits t : Nat) : Int)) else none
  | t => if !t.isEmpty && t.all Char.isDigit then some ((natOfDigits t : Nat) : Int) else none

/-- Rest of a float literal after the mantissa: empty, or e or E then an
exponent. -/
def tailExp (l : List Char) : Option Int :=
  match l with
  | [] => some 0
  | 'e' :: t => expVal t
  | 'E' :: t => expVal t
  | _ => none

/-- Unsigned numeric float literal: digits, optional dot and fraction
digits (at least one digit overall), optional exponent. -/
def mantExp (l : List Char) : Option Rat :=
  let d1 := l.takeWhile Char.isDigit
  let r1 := l.dropWhile Char.isDigit
  match r1 with
  | '.' :: t =>
    let d2 := t.takeWhile Char.isDigit
    let r2 := t.dropWhile Char.isDigit
    if d1.isEmpty && d2.isEmpty then none
    else (tailExp r2).map (fun e => ((natOfDigits (d1 ++ d2) : Nat) : Rat) * tenPow (e - (d2.length : Int)))
  | _ =>
    if d1.isEmpty then none
    else (tailExp r1).map (fun e => ((natOfDigits d1 : Nat) : Rat) * tenPow e)

/-- Lowercased character list. -/
def lcLower (l : List Char) : List Char := l.map Char.toLower

/-- Unsigned Python float literal: inf, infinity, nan (case-insensitive) or
a numeric literal. -/
def unsignedPF (l : List Char) : Option PFloat :=
  if lcLower l == "inf".data || lcLower l == "infinity".data then some .inf
  else if lcLower l == "nan".data then some .nan
  else (mantExp l).map PFloat.finite

/-- Signed Python float literal. -/
def signedPF : List Char → Option PFloat
  | '+' :: t => unsignedPF t
  | '-' :: t => (unsignedPF t).map PFloat.neg
  | t => unsignedPF t

/-- Model of Python float(s) on strings: strip whitespace, validate and
drop digit-group underscores, parse the signed literal; none models a
raised ValueError. -/
def pyFloat (s : String) : Option PFloat :=
  match deU (((s.data.dropWhile isPyWS).reverse.dropWhile isPyWS).reverse) false with
  | some l => signedPF l
  | none => none

/-- Lower bound check of the box test against a coordinate. -/
def leFB : PFloat → Rat → Bool
  | .finite a, x => decide (a ≤ x)
  | .inf, _ => false
  | .ninf, _ => true
  | .nan, _ => false

/-- Upper bound check of the box test against a coordinate. -/
def leRF : Rat → PFloat → Bool
  | x, .finite b => decide (x ≤ b)
  | _, .inf => true
  | _, .ninf => false
  | _, .nan => false

/-- Inclusive interval membership for one coordinate. -/
def ptIn (lo : PFloat) (x : Rat) (hi : PFloat) : Bool := leFB lo x && leRF x hi

/-- One location entry against the box: its geo.coordinates pair must lie
in the rectangle (the store's inclusive box containment on the
indexed point). -/
def locInBox (mnx mny mxx mxy : PFloat) (loc : Json) : Bool :=
  match loc with
  | .obj lfs =>
    match dget lfs "geo" with
    | some (.obj gfs) =>
      match dget gfs "coordinates" with
      | some (.arr [Json.num lng, Json.num lat]) => ptIn mnx lng mxx && ptIn mny lat mxy
      | _ => false
    | _ => false
  | _ => false

/-- The geoWithin box query (app.py lines 231-240) evaluated on one stored
document: some location entry lies inside the box. -/
def inBoxDoc (mnx mny mxx mxy : PFloat) (doc : Json) : Bool :=
  match doc with
  | .obj fs =>
    match dget fs "locations" with
    | some (.arr ls) => ls.any (locInBox mnx mny mxx mxy)
    | _ => false
  | _ => false

/-- Query-string arguments of GET /api/books-in-bbox; none is an absent
parameter. -/
structure BBoxArgs where
  min_lng : Option String
  min_lat : Option String
  max_lng : Option String
  max_lat : Option String

/-- Whether the four-float parse of books_in_bbox raises: float(None) or
float of a non-numeric string. -/
def bboxBad (args : BBoxArgs) : Bool :=
  (args.min_lng.bind pyFloat).isNone || (args.min_lat.bind pyFloat).isNone ||
  (args.max_lng.bind pyFloat).isNone || (args.max_lat.bind pyFloat).isNone

/-- Handler books_in_bbox (GET /api/books-in-bbox, app.py lines 221-259)
over a store holding the list db of documents in its return order. -/
def books_in_bbox (args : BBoxArgs) (db : List Json) : QueryRes :=
  match args.min_lng.bind pyFloat, args.min_lat.bind pyFloat,
        args.max_lng.bind pyFloat, args.max_lat.bind pyFloat with
  | some mnx, some mny, some mxx, some mxy =>
    match mapE project ((db.filter (inBoxDoc mnx mny mxx mxy)).take 300) with
    | .ok bs =>
      ⟨.ok ⟨200, .obj [("count", .num ((bs.length : Nat) : Rat)), ("books", .arr bs)]⟩,
       (db.filter (inBoxDoc mnx mny mxx mxy)).take 300, true⟩
    | .error e => ⟨.error e, (db.filter (inBoxDoc mnx mny mxx mxy)).take 300, true⟩
  | _, _, _, _ => ⟨.ok ⟨400, errBody "Invalid BBOX"⟩, [], false⟩

/-- Case-insensitive comparison of a candidate substring against the head
of a text.  Stated from the spec wording of the search contract, for
comparison with the code's regex test. -/
def headSubCI : List Char → List Char → Bool
  | [], _ => true
  | _ :: _, [] => false
  | a :: as, b :: bs => (a.toLower == b.toLower) && headSubCI as bs

/-- Case-insensitive substring occurrence, scanning every suffix.  Stated
from the spec wording of the search contract. -/
def isSubCI (p : List Char) : List Char → Bool
  | [] => headSubCI p []
  | c :: ts => headSubCI p (c :: ts) || isSubCI p ts

/-- One field clause of the search contract as the spec words it: the query
occurs as a case-insensitive substring of the field (of some element for an
array field). -/
def fieldSub (pat : String) : Option Json → Bool
  | some (.str t) => isSubCI pat.data t.data
  | some (.arr xs) => xs.any (fun x => match x with | .str t => isSubCI pat.data t.data | _ => false)
  | _ => false

/-- The search predicate as the spec words it: case-insensitive substring
against title or author or tags or category or description. -/
def specMatch (pat : String) (doc : Json) : Bool :=
  match doc with
  | .obj fs =>
    fieldSub pat (dget fs "title") || fieldSub pat (dget fs "author") ||
    fieldSub pat (dget fs "tags") || fieldSub pat (dget fs "category") ||
    fieldSub pat (dget fs "description")
  | _ => false

/-- Regular-expression metacharacters of the store's regex dialect. -/
def metaChars : List Char :=
  ['\\', '^', '$', '.', '|', '?', '*', '+', '(', ')', '[', ']', '\x7b', '\x7d']

/-- A pattern with no metacharacter, i.e. one the regex engine treats as a
literal string. -/
def noMeta (l : List Char) : Bool := l.all (fun c => !(metaChars.contains c))

/-- Per-entry extraction as the claim words the Location Normalizer
contract: a record exactly when geo.coordinates is a two-element array
(missing keys, wrong arity, wrong type are structural failures).  Stated
from the claim, for comparison with normLoc from the source. -/
def specLoc : Json → Option Json
  | .obj lfs =>
    match dget lfs "geo" with
    | some (.obj gfs) =>
      match dget gfs "coordinates" with
      | some (.arr [lng, lat]) =>
        some (.obj [("lat", lat), ("lng", lng),
                    ("place_name", pyGet lfs "place_name"),
                    ("country", pyGet lfs "country")])
      | _ => none
    | _ => none
  | _ => none

/-- The Location Normalizer as the claim words it: a total function of the
document, keeping exactly the structurally well-formed entries in order.
Stated from the claim, for comparison with normalize_locations. -/
def normSpec (doc : Json) : List Json :=
  match doc with
  | .obj fs =>
    match (dget fs "locations").getD (.arr []) with
    | .arr ls => ls.filterMap specLoc
    | _ => []
  | _ => []

/-- The required-field loop resolves to the first missing key in the fixed
order title, author, locations. -/
theorem firstMissing_eq (data : List (String × Json)) :
    firstMissing data =
      if (dget data "title").isNone then some "title"
      else if (dget data "author").isNone then some "author"
      else if (dget data "locations").isNone then some "locations"
      else none := by
  cases h1 : (dget data "title").isNone <;>
    cases h2 : (dget data "author").isNone <;>
    cases h3 : (dget data "locations").isNone <;>
    simp [firstMissing, requiredFields, List.find?, h1, h2, h3]

/-- When no required field is missing, all three keys are present. -/
theorem firstMissing_none (data : List (String × Json))
    (hv : firstMissing data = none) :
    (dget data "title").isSome = true ∧ (dget data "author").isSome = true ∧
    (dget data "locations").isSome = true := by
  rw [firstMissing_eq] at hv
  cases o1 : dget data "title" <;> cases o2 : dget data "author" <;>
    cases o3 : dget data "locations" <;> simp [o1, o2, o3] at hv ⊢

/-- Updating one key of a dict leaves the lookup of any other key alone. -/
theorem dget_dset_ne (d : List (String × Json)) (key : String) (v : Json)
    (k : String) (hk : k ≠ key) : dget (dset d key v) k = dget d k := by
  induction d with
  | nil => simp [dset, dget, beq_iff_eq, Ne.symm hk]
  | cons p t ih =>
    obtain ⟨k0, v0⟩ := p
    by_cases h : k0 = key
    · subst h
      simp [dset, dget, beq_iff_eq, Ne.symm hk]
    · simp [dset, dget, beq_iff_eq, h, ih]

/-- A timestamp-prefixed filename is a nonempty, hence truthy, string. -/
theorem fstr_truthy (a b : String) : jsonTruthy (.str (fstr a b)) = true := by
  simp only [jsonTruthy, fstr]
  cases h : a.data <;> simp

/-- The insert tail always answers 201 with the success body. -/
theorem finishInsert_resp (data : List (String × Json)) (u : Option Json)
    (rc : Option UploadOpts) (ra : Nat) (ls : Option String) :
    (finishInsert data u rc ra ls).resp = ⟨201, okBody⟩ := by
  cases u with
  | none => rfl
  | some v => simp only [finishInsert]; split <;> rfl

/-- The insert tail reports exactly the remote call it was given. -/
theorem finishInsert_remoteCall (data : List (String × Json)) (u : Option Json)
    (rc : Option UploadOpts) (ra : Nat) (ls : Option String) :
    (finishInsert data u rc ra ls).remoteCall = rc := by
  cases u with
  | none => rfl
  | some v => simp only [finishInsert]; split <;> rfl

/-- The insert tail reports exactly the remote attempt count it was given. -/
theorem finishInsert_remoteAttempts (data : List (String × Json)) (u : Option Json)
    (rc : Option UploadOpts) (ra : Nat) (ls : Option String) :
    (finishInsert data u rc ra ls).remoteAttempts = ra := by
  cases u with
  | none => rfl
  | some v => simp only [finishInsert]; split <;> rfl

/-- The insert tail reports exactly the local write it was given. -/
theorem finishInsert_localSaved (data : List (String × Json)) (u : Option Json)
    (rc : Option UploadOpts) (ra : Nat) (ls : Option String) :
    (finishInsert data u rc ra ls).localSaved = ls := by
  cases u with
  | none => rfl
  | some v => simp only [finishInsert]; split <;> rfl

/-- The insert tail persists the validated payload, possibly with a
pdf_file binding added; lookups of other keys are unchanged. -/
theorem finishInsert_inserted (data : List (String × Json)) (u : Option Json)
    (rc : Option UploadOpts) (ra : Nat) (ls : Option String) :
    ∃ d, (finishInsert data u rc ra ls).inserted = some (.obj d) ∧
      ∀ k, k ≠ "pdf_file" → dget d k = dget data k := by
  cases u with
  | none => exact ⟨data, rfl, fun k _ => rfl⟩
  | some v =>
    simp only [finishInsert]
    split
    · exact ⟨dset data "pdf_file" v, rfl, fun k hk => dget_dset_ne data "pdf_file" v k hk⟩
    · exact ⟨data, rfl, fun k _ => rfl⟩

/-- The append loop of normalize_locations is filterMap of the per-entry
extraction, in entry order. -/
theorem normLoop_eq (ls : List Json) : ∀ out, normLoop ls out = out ++ ls.filterMap normLoc := by
  induction ls with
  | nil => intro out; simp [normLoop]
  | cons l t ih =>
    intro out
    cases h : normLoc l <;> simp [normLoop, h, ih, List.filterMap_cons]

/-- A successful projection pass preserves the number of documents. -/
theorem mapE_len (f : Json → Except Unit Json) :
    ∀ (l : List Json) (bs : List Json), mapE f l = .ok bs → bs.length = l.length := by
  intro l
  induction l with
  | nil =>
    intro bs h
    simp only [mapE] at h
    cases h
    rfl
  | cons a t ih =>
    intro bs h
    simp only [mapE] at h
    cases hf : f a <;> rw [hf] at h
    · cases h
    · cases hm : mapE f t <;> rw [hm] at h
      · cases h
      · cases h
        simp [ih _ hm]

/-- A metacharacter-free pattern is matched at the head of the text exactly
as a case-insensitive literal comparison. -/
theorem matchHere_eq : ∀ (p t : List Char), noMeta p = true → matchHere p t = headSubCI p t := by
  intro p
  induction p with
  | nil => intro t _; rfl
  | cons a as ih =>
    intro t hp
    rw [noMeta, List.all_cons, Bool.and_eq_true] at hp
    obtain ⟨h1, h2⟩ := hp
    have ha : (a == '.') = false := by
      cases hb : a == '.'
      · rfl
      · exfalso
        have hae : a = '.' := eq_of_beq hb
        subst hae
        simp [metaChars] at h1
    cases t with
    | nil => rfl
    | cons b bs => simp [matchHere, headSubCI, ha, ih bs h2]

/-- A metacharacter-free pattern is found unanchored exactly as a
case-insensitive substring. -/
theorem reSearch_eq (p : List Char) (hp : noMeta p = true) :
    ∀ t, reSearch p t = isSubCI p t := by
  intro t
  induction t with
  | nil => simp [reSearch, isSubCI, matchHere_eq p [] hp]
  | cons c ts ih => simp [reSearch, isSubCI, matchHere_eq p (c :: ts) hp, ih]

/-- On a metacharacter-free query, the regex clause of one field coincides
with the substring clause of the spec. -/
theorem fieldRe_eq (pat : String) (hp : noMeta pat.data = true) (v : Option Json) :
    fieldRe pat v = fieldSub pat v := by
  cases v with
  | none => rfl
  | some j =>
    cases j with
    | str t => simp [fieldRe, fieldSub, reTest, reSearch_eq pat.data hp]
    | arr xs =>
      simp only [fieldRe, fieldSub]
      have : (fun x => match x with | Json.str t => reTest pat t | _ => false)
           = (fun x => match x with | Json.str t => isSubCI pat.data t.data | _ => false) := by
        funext x
        cases x <;> simp [reTest, reSearch_eq pat.data hp]
      rw [this]
    | null => rfl
    | bool b => rfl
    | num q => rfl
    | obj fs => rfl

/-- On a metacharacter-free query, the or-query the handler builds selects
exactly the documents the spec's substring predicate selects. -/
theorem codeMatch_eq (pat : String) (doc : Json) (hp : noMeta pat.data = true) :
    codeMatch pat doc = specMatch pat doc := by
  cases doc with
  | obj fs => simp [codeMatch, specMatch, fieldRe_eq pat hp]
  | null => rfl
  | bool b => rfl
  | num q => rfl
  | str s => rfl
  | arr l => rfl

/-- C1: a creation request whose body lacks at least one of the keys title,
author, locations gets HTTP 400 with body naming the first missing field in
the fixed check order title, author, locations, and no document is
inserted; the same validation and order apply to the multipart endpoint
once its payload has parsed. -/
theorem C1_validation (data : List (String × Json)) (f : String)
    (h : firstMissing data = some f) :
    f = (if (dget data "title").isNone then "title"
         else if (dget data "author").isNone then "author" else "locations") ∧
    add_book_json data = ⟨⟨400, errBody (f ++ " is required")⟩, none⟩ ∧
    ∀ (secure : String → String) (now : String) (req : MPReq),
      req.payload = .parsed data →
      add_book_with_pdf secure now req =
        ⟨⟨400, errBody (f ++ " is required")⟩, none, none, 0, none⟩ := by
  refine ⟨?_, ?_, ?_⟩
  · rw [firstMissing_eq] at h
    cases o1 : (dget data "title").isNone <;> cases o2 : (dget data "author").isNone <;>
      cases o3 : (dget data "locations").isNone <;> simp [o1, o2, o3] at h <;> simp [o1, o2, o3, h]
  · simp [add_book_json, h]
  · intro secure now req hp
    obtain ⟨pl, fl, up⟩ := req
    dsimp only at hp
    subst hp
    simp [add_book_with_pdf, h]

/-- Witness for C1 at a concrete body missing the title key. -/
theorem C1_validation_w :
    add_book_json [("author", Json.str "a")] = ⟨⟨400, errBody "title is required"⟩, none⟩ ∧
    add_book_with_pdf id "0" ⟨.parsed [("author", Json.str "a")], none, .raised⟩ =
      ⟨⟨400, errBody "title is required"⟩, none, none, 0, none⟩ :=
  ⟨(C1_validation [("author", Json.str "a")] "title" rfl).2.1,
   (C1_validation [("author", Json.str "a")] "title" rfl).2.2 id "0"
     ⟨.parsed [("author", Json.str "a")], none, .raised⟩ rfl⟩

/-- C4 counterexample: a body whose locations value is the empty array
passes validation of POST /api/book; the handler answers 201 and inserts a
document whose locations is the empty array, so a stored book can have
empty locations. -/
theorem C4_cex :
    (add_book_json [("title", Json.str "t"), ("author", Json.str "a"),
        ("locations", Json.arr [])]).inserted =
      some (.obj [("title", Json.str "t"), ("author", Json.str "a"),
        ("locations", Json.arr [])]) ∧
    dget [("title", Json.str "t"), ("author", Json.str "a"),
        ("locations", Json.arr [])] "locations" = some (.arr []) ∧
    (add_book_json [("title", Json.str "t"), ("author", Json.str "a"),
        ("locations", Json.arr [])]).resp.status = 201 :=
  ⟨rfl, rfl, rfl⟩

/-- C4 amended: the ingestion endpoints enforce only the presence of the
keys title, author and locations on every document they insert; the value
under locations is not inspected, so an empty array or a non-array value
is accepted and persisted. -/
theorem C4_amended :
    (∀ (data : List (String × Json)) (d : Json),
      (add_book_json data).inserted = some d →
      (jget d "title").isSome = true ∧ (jget d "author").isSome = true ∧
      (jget d "locations").isSome = true) ∧
    (∀ (secure : String → String) (now : String) (req : MPReq)
        (data : List (String × Json)) (d : Json),
      req.payload = .parsed data →
      (add_book_with_pdf secure now req).inserted = some d →
      (jget d "title").isSome = true ∧ (jget d "author").isSome = true ∧
      (jget d "locations").isSome = true) := by
  constructor
  · intro data d hins
    cases hm : firstMissing data
    · obtain ⟨p1, p2, p3⟩ := firstMissing_none data hm
      simp only [add_book_json, hm] at hins
      cases hins
      exact ⟨by simpa [jget] using p1, by simpa [jget] using p2, by simpa [jget] using p3⟩
    · simp [add_book_json, hm] at hins
  · intro secure now req data d hp hins
    obtain ⟨pl, fl, up⟩ := req
    dsimp only at hp
    subst hp
    cases hm : firstMissing data
    · obtain ⟨p1, p2, p3⟩ := firstMissing_none data hm
      have main : ∀ (u : Option Json) (rc : Option UploadOpts) (ra : Nat) (ls : Option String),
          (finishInsert data u rc ra ls).inserted = some d →
          (jget d "title").isSome = true ∧ (jget d "author").isSome = true ∧
          (jget d "locations").isSome = true := by
        intro u rc ra ls hfin
        obtain ⟨fs, hfs, hkeys⟩ := finishInsert_inserted data u rc ra ls
        rw [hfs] at hfin
        cases hfin
        refine ⟨?_, ?_, ?_⟩
        · rw [jget, hkeys "title" (by decide)]; exact p1
        · rw [jget, hkeys "author" (by decide)]; exact p2
        · rw [jget, hkeys "locations" (by decide)]; exact p3
      simp only [add_book_with_pdf, hm] at hins
      cases fl with
      | none => exact main none none 0 none hins
      | some fn =>
        dsimp only at hins
        by_cases hfn : fn == ""
        · rw [if_pos hfn] at hins
          exact main none none 0 none hins
        · rw [if_neg hfn] at hins
          by_cases hal : allowed_file fn
          · rw [if_pos hal] at hins
            cases up with
            | raised => exact main _ _ _ _ hins
            | ok res => exact main _ _ _ _ hins
          · rw [if_neg hal] at hins
            cases hins
    · simp [add_book_with_pdf, hm] at hins

/-- Witness for C4 amended at a concrete valid body, on both endpoints. -/
theorem C4_amended_w :
    ((jget (.obj [("title", Json.str "t"), ("author", Json.str "a"),
        ("locations", Json.arr [Json.null])]) "title").isSome = true ∧
     (jget (.obj [("title", Json.str "t"), ("author", Json.str "a"),
        ("locations", Json.arr [Json.null])]) "author").isSome = true ∧
     (jget (.obj [("title", Json.str "t"), ("author", Json.str "a"),
        ("locations", Json.arr [Json.null])]) "locations").isSome = true) ∧
    ((jget (.obj [("title", Json.str "t"), ("author", Json.str "a"),
        ("locations", Json.arr [Json.null])]) "title").isSome = true ∧
     (jget (.obj [("title", Json.str "t"), ("author", Json.str "a"),
        ("locations", Json.arr [Json.null])]) "author").isSome = true ∧
     (jget (.obj [("title", Json.str "t"), ("author", Json.str "a"),
        ("locations", Json.arr [Json.null])]) "locations").isSome = true) :=
  ⟨C4_amended.1 [("title", Json.str "t"), ("author", Json.str "a"),
      ("locations", Json.arr [Json.null])] _ rfl,
   C4_amended.2 id "0"
      ⟨.parsed [("title", Json.str "t"), ("author", Json.str "a"),
        ("locations", Json.arr [Json.null])], none, .raised⟩
      [("title", Json.str "t"), ("author", Json.str "a"),
        ("locations", Json.arr [Json.null])] _ rfl rfl⟩

/-- C9: a query that is empty after stripping whitespace short-circuits:
200 with an empty books array, no documents selected, and no store query
executed. -/
theorem C9_blank (q : Option String) (db : List Json)
    (h : (pyStrip (q.getD "") == "") = true) :
    search_books q db = ⟨.ok ⟨200, .obj [("books", .arr [])]⟩, [], false⟩ := by
  simp [search_books, h]

/-- Witness for C9 at a whitespace-only query over a nonempty store. -/
theorem C9_blank_w :
    search_books (some "   ") [Json.obj [("title", Json.str "x")]] =
      ⟨.ok ⟨200, .obj [("books", .arr [])]⟩, [], false⟩ :=
  C9_blank (some "   ") [Json.obj [("title", Json.str "x")]] rfl

/-- C2 counterexample: the query a.c contains a regex metacharacter; the
handler passes it unescaped to the store's regex test, so it selects a book
titled abc even though a.c is not a substring of any of its fields — the
spec's substring predicate selects nothing. -/
theorem C2_cex :
    (search_books (some "a.c")
        [Json.obj [("_id", Json.num 1), ("title", Json.str "abc")]]).selected =
      [Json.obj [("_id", Json.num 1), ("title", Json.str "abc")]] ∧
    List.filter (specMatch "a.c")
        [Json.obj [("_id", Json.num 1), ("title", Json.str "abc")]] = [] ∧
    specMatch "a.c" (Json.obj [("_id", Json.num 1), ("title", Json.str "abc")]) = false :=
  ⟨rfl, rfl, rfl⟩

/-- C2 amended: for every non-blank query free of regex metacharacters,
the search endpoint selects exactly the stored books (in store order,
capped at 150) with the query as a case-insensitive substring of title,
author, tags, category or description, and it queries the store; a query
containing metacharacters is instead interpreted as a regular expression. -/
theorem C2_amended (q : Option String) (db : List Json) (s : String)
    (hs : pyStrip (q.getD "") = s) (hne : (s == "") = false)
    (hlit : noMeta s.data = true) :
    (search_books q db).selected = (db.filter (specMatch s)).take 150 ∧
    (search_books q db).queried = true := by
  have hcf : db.filter (codeMatch s) = db.filter (specMatch s) := by
    have hfun : codeMatch s = specMatch s := funext (fun doc => codeMatch_eq s doc hlit)
    rw [hfun]
  simp only [search_books, hs, hne]
  rw [hcf]
  cases hm : mapE project ((db.filter (specMatch s)).take 150) <;> simp [hm]

/-- Witness for C2 amended at the literal query atlas over a one-book
store whose title contains Atlas. -/
theorem C2_amended_w :
    (search_books (some "atlas")
        [Json.obj [("_id", Json.num 1), ("title", Json.str "Atlas of Dreams")]]).selected =
      (List.filter (specMatch "atlas")
        [Json.obj [("_id", Json.num 1), ("title", Json.str "Atlas of Dreams")]]).take 150 ∧
    (search_books (some "atlas")
        [Json.obj [("_id", Json.num 1), ("title", Json.str "Atlas of Dreams")]]).queried = true :=
  C2_amended (some "atlas")
    [Json.obj [("_id", Json.num 1), ("title", Json.str "Atlas of Dreams")]]
    "atlas" (by decide) (by decide) (by decide)

/-- C6 counterexample: a location whose coordinates value is the two
character string ab is of the wrong type, yet Python tuple unpacking
succeeds on it, so the code emits a record built from its characters
instead of skipping the entry as the claim demands; and a document whose
locations value is the number 5 makes the function raise instead of
returning. -/
theorem C6_cex :
    normalize_locations (.obj [("locations", Json.arr
        [Json.obj [("geo", Json.obj [("coordinates", Json.str "ab")])]])]) =
      .ok [Json.obj [("lat", Json.str "b"), ("lng", Json.str "a"),
        ("place_name", Json.null), ("country", Json.null)]] ∧
    normSpec (.obj [("locations", Json.arr
        [Json.obj [("geo", Json.obj [("coordinates", Json.str "ab")])]])]) = [] ∧
    normalize_locations (.obj [("locations", Json.num 5)]) = .error () :=
  ⟨rfl, rfl, rfl⟩

/-- C6 amended: on any document whose locations value is absent or
iterable, normalize_locations returns, in order, one record per entry
whose geo.coordinates unpacks as exactly two items — a two-element array,
or, through Python unpacking, a two-character string or a two-key dict —
and silently skips all other entries; every well-formed two-element-array
entry yields its record.  When the locations value itself is not iterable
the function raises instead of returning. -/
theorem C6_amended (doc : Json) (fs : List (String × Json)) (ls : List Json)
    (hdoc : doc = .obj fs)
    (hiter : jIter ((dget fs "locations").getD (.arr [])) = some ls) :
    normalize_locations doc = .ok (ls.filterMap normLoc) ∧
    ∀ (lfs gfs : List (String × Json)) (lng lat : Json),
      dget lfs "geo" = some (.obj gfs) →
      dget gfs "coordinates" = some (.arr [lng, lat]) →
      normLoc (.obj lfs) =
        some (.obj [("lat", lat), ("lng", lng),
                    ("place_name", pyGet lfs "place_name"),
                    ("country", pyGet lfs "country")]) := by
  constructor
  · subst hdoc
    simp [normalize_locations, hiter, normLoop_eq]
  · intro lfs gfs lng lat h1 h2
    simp [normLoc, h1, jget, h2, unpack2, jIter]

/-- Witness for C6 amended at a concrete document with one well-formed
location entry. -/
theorem C6_amended_w :
    normalize_locations (.obj [("locations", Json.arr
        [Json.obj [("geo", Json.obj [("coordinates", Json.arr [Json.num 1, Json.num 2])]),
                   ("place_name", Json.str "X")]])]) =
      .ok (([Json.obj [("geo", Json.obj [("coordinates", Json.arr [Json.num 1, Json.num 2])]),
                   ("place_name", Json.str "X")]] : List Json).filterMap normLoc) ∧
    normLoc (.obj [("geo", Json.obj [("coordinates", Json.arr [Json.num 1, Json.num 2])]),
                   ("place_name", Json.str "X")]) =
      some (.obj [("lat", Json.num 2), ("lng", Json.num 1),
                  ("place_name", pyGet [("geo", Json.obj [("coordinates", Json.arr [Json.num 1, Json.num 2])]),
                   ("place_name", Json.str "X")] "place_name"),
                  ("country", pyGet [("geo", Json.obj [("coordinates", Json.arr [Json.num 1, Json.num 2])]),
                   ("place_name", Json.str "X")] "country")]) :=
  ⟨(C6_amended (.obj [("locations", Json.arr
        [Json.obj [("geo", Json.obj [("coordinates", Json.arr [Json.num 1, Json.num 2])]),
                   ("place_name", Json.str "X")]])])
      [("locations", Json.arr
        [Json.obj [("geo", Json.obj [("coordinates", Json.arr [Json.num 1, Json.num 2])]),
                   ("place_name", Json.str "X")]])]
      [Json.obj [("geo", Json.obj [("coordinates", Json.arr [Json.num 1, Json.num 2])]),
                   ("place_name", Json.str "X")]] rfl rfl).1,
   (C6_amended (.obj [("locations", Json.arr
        [Json.obj [("geo", Json.obj [("coordinates", Json.arr [Json.num 1, Json.num 2])]),
                   ("place_name", Json.str "X")]])])
      [("locations", Json.arr
        [Json.obj [("geo", Json.obj [("coordinates", Json.arr [Json.num 1, Json.num 2])]),
                   ("place_name", Json.str "X")]])]
      [Json.obj [("geo", Json.obj [("coordinates", Json.arr [Json.num 1, Json.num 2])]),
                   ("place_name", Json.str "X")]] rfl rfl).2
     [("geo", Json.obj [("coordinates", Json.arr [Json.num 1, Json.num 2])]),
      ("place_name", Json.str "X")]
     [("coordinates", Json.arr [Json.num 1, Json.num 2])]
     (Json.num 1) (Json.num 2) rfl rfl⟩

/-- C5: the bbox endpoint answers 400 with body error Invalid BBOX exactly
when one of the four parameters is missing or does not parse as a float;
when all parse, at most 300 documents are selected and a successful 200
response carries count equal to the length of its books array, itself at
most 300. -/
theorem C5_bbox (args : BBoxArgs) (db : List Json) :
    ((books_in_bbox args db).resp = .ok ⟨400, errBody "Invalid BBOX"⟩ ↔ bboxBad args = true) ∧
    (bboxBad args = false →
      (books_in_bbox args db).selected.length ≤ 300 ∧
      ∀ bs, mapE project (books_in_bbox args db).selected = .ok bs →
        (books_in_bbox args db).resp =
          .ok ⟨200, .obj [("count", .num ((bs.length : Nat) : Rat)), ("books", .arr bs)]⟩ ∧
        bs.length ≤ 300) := by
  cases h1 : args.min_lng.bind pyFloat <;> cases h2 : args.min_lat.bind pyFloat <;>
    cases h3 : args.max_lng.bind pyFloat <;> cases h4 : args.max_lat.bind pyFloat <;>
    simp only [books_in_bbox, bboxBad, h1, h2, h3, h4, Option.isNone_none, Option.isNone_some,
      Bool.true_or, Bool.or_true, Bool.false_or, Bool.or_false]
  case some.some.some.some mnx mny mxx mxy =>
    cases hm : mapE project ((db.filter (inBoxDoc mnx mny mxx mxy)).take 300) <;> simp only [hm]
    case error e =>
      refine ⟨by simp, ?_⟩
      intro _
      refine ⟨List.length_take_le 300 _, ?_⟩
      intro bs hbs
      exact Except.noConfusion hbs
    case ok bs0 =>
      constructor
      · simp [errBody, okBody]
      · intro _
        refine ⟨List.length_take_le 300 _, ?_⟩
        intro bs hbs
        injection hbs with hbb
        subst hbb
        refine ⟨rfl, ?_⟩
        rw [mapE_len project _ bs0 hm]
        exact List.length_take_le 300 _
  all_goals
    refine ⟨by simp, ?_⟩
    intro hbad
    cases hbad

/-- Witness for C5 at concrete well-formed bounds over an empty store. -/
theorem C5_bbox_w :
    bboxBad ⟨some "0", some "0", some "10", some "10"⟩ = false ∧
    (books_in_bbox ⟨some "0", some "0", some "10", some "10"⟩ []).selected.length ≤ 300 ∧
    (books_in_bbox ⟨some "0", some "0", some "10", some "10"⟩ []).resp =
      .ok ⟨200, .obj [("count", Json.num 0), ("books", .arr [])]⟩ := by
  refine ⟨by decide, ((C5_bbox ⟨some "0", some "0", some "10", some "10"⟩ []).2 (by decide)).1, ?_⟩
  have h := ((C5_bbox ⟨some "0", some "0", some "10", some "10"⟩ []).2 (by decide)).2 [] (by rfl)
  simpa using h.1

/-- C3: when the remote upload raises, the handler makes exactly one remote
attempt, falls back to a local write of the timestamp-prefixed sanitized
filename, persists that filename as pdf_file on the document, and still
answers 201 success. -/
theorem C3_fallback (secure : String → String) (now : String) (req : MPReq)
    (data : List (String × Json)) (fn : String)
    (hp : req.payload = .parsed data) (hv : firstMissing data = none)
    (hf : req.file = some fn) (hfn : (fn == "") = false)
    (ha : allowed_file fn = true) (hu : req.upload = .raised) :
    add_book_with_pdf secure now req =
      ⟨⟨201, okBody⟩,
       some (.obj (dset data "pdf_file" (.str (fstr now (secure fn))))),
       some cloudinaryOpts, 1, some (fstr now (secure fn))⟩ := by
  obtain ⟨pl, fl, up⟩ := req
  dsimp only at hp hf hu
  subst hp; subst hf; subst hu
  simp [add_book_with_pdf, hv, hfn, ha, finishInsert, fstr_truthy]

/-- Witness for C3 at a concrete request whose upload raises. -/
theorem C3_fallback_w :
    add_book_with_pdf id "123.0"
        ⟨.parsed [("title", Json.str "t"), ("author", Json.str "a"),
          ("locations", Json.arr [Json.null])], some "a.pdf", .raised⟩ =
      ⟨⟨201, okBody⟩,
       some (.obj [("title", Json.str "t"), ("author", Json.str "a"),
         ("locations", Json.arr [Json.null]), ("pdf_file", Json.str "123.0_a.pdf")]),
       some cloudinaryOpts, 1, some "123.0_a.pdf"⟩ := by
  exact C3_fallback id "123.0"
    ⟨.parsed [("title", Json.str "t"), ("author", Json.str "a"),
      ("locations", Json.arr [Json.null])], some "a.pdf", .raised⟩
    [("title", Json.str "t"), ("author", Json.str "a"),
      ("locations", Json.arr [Json.null])] "a.pdf" rfl rfl rfl rfl rfl rfl

/-- C7: an uploaded file with a non-empty filename whose extension is not
pdf (case-insensitively) makes the handler answer 400 with no remote
attempt, no local write and no inserted document; when the payload parsed
and validated, the body is error Only PDF allowed. -/
theorem C7_reject (secure : String → String) (now : String) (req : MPReq)
    (fn : String) (ext : List Char)
    (hf : req.file = some fn) (hfn : (fn == "") = false)
    (hdot : extAfterLastDot fn.data none = some ext)
    (hext : (ext.map Char.toLower == "pdf".data) = false) :
    (add_book_with_pdf secure now req).remoteAttempts = 0 ∧
    (add_book_with_pdf secure now req).localSaved = none ∧
    (add_book_with_pdf secure now req).inserted = none ∧
    (add_book_with_pdf secure now req).resp.status = 400 ∧
    ∀ data, req.payload = .parsed data → firstMissing data = none →
      (add_book_with_pdf secure now req).resp = ⟨400, errBody "Only PDF allowed"⟩ := by
  have hna : allowed_file fn = false := by
    simp [allowed_file, hdot, hext]
  obtain ⟨pl, fl, up⟩ := req
  dsimp only at hf
  subst hf
  cases pl with
  | missing =>
    refine ⟨rfl, rfl, rfl, rfl, ?_⟩
    intro data hp2
    exact Payload.noConfusion hp2
  | invalid =>
    refine ⟨rfl, rfl, rfl, rfl, ?_⟩
    intro data hp2
    exact Payload.noConfusion hp2
  | parsed data0 =>
    cases hm : firstMissing data0 with
    | some f =>
      refine ⟨by simp [add_book_with_pdf, hm], by simp [add_book_with_pdf, hm],
              by simp [add_book_with_pdf, hm], by simp [add_book_with_pdf, hm], ?_⟩
      intro data hp2 hv2
      injection hp2 with hdd
      subst hdd
      rw [hm] at hv2
      cases hv2
    | none =>
      refine ⟨?_, ?_, ?_, ?_, fun _ _ _ => ?_⟩ <;>
        simp [add_book_with_pdf, hm, hfn, hna]

/-- Witness for C7 at a concrete request carrying a txt file. -/
theorem C7_reject_w :
    (add_book_with_pdf id "0"
        ⟨.parsed [("title", Json.str "t"), ("author", Json.str "a"),
          ("locations", Json.arr [Json.null])], some "a.txt", .raised⟩).remoteAttempts = 0 ∧
    (add_book_with_pdf id "0"
        ⟨.parsed [("title", Json.str "t"), ("author", Json.str "a"),
          ("locations", Json.arr [Json.null])], some "a.txt", .raised⟩).localSaved = none ∧
    (add_book_with_pdf id "0"
        ⟨.parsed [("title", Json.str "t"), ("author", Json.str "a"),
          ("locations", Json.arr [Json.null])], some "a.txt", .raised⟩).inserted = none ∧
    (add_book_with_pdf id "0"
        ⟨.parsed [("title", Json.str "t"), ("author", Json.str "a"),
          ("locations", Json.arr [Json.null])], some "a.txt", .raised⟩).resp =
      ⟨400, errBody "Only PDF allowed"⟩ := by
  have h := C7_reject id "0"
    ⟨.parsed [("title", Json.str "t"), ("author", Json.str "a"),
      ("locations", Json.arr [Json.null])], some "a.txt", .raised⟩
    "a.txt" ['t', 'x', 't'] rfl rfl rfl rfl
  exact ⟨h.1, h.2.1, h.2.2.1, h.2.2.2.2 [("title", Json.str "t"), ("author", Json.str "a"),
      ("locations", Json.arr [Json.null])] rfl rfl⟩

/-- C8 counterexample: on a concrete accepted upload, the options the
handler passes to the remote uploader carry unique_filename False, i.e. the
call requests reuse of the original filename with no uniqueness suffix, not
a unique non-overwriting name. -/
theorem C8_cex :
    (add_book_with_pdf id "1700000000.0"
        ⟨.parsed [("title", Json.str "t"), ("author", Json.str "a"),
          ("locations", Json.arr [])], some "b.pdf", .ok []⟩).remoteCall =
      some cloudinaryOpts ∧
    cloudinaryOpts.unique_filename = false :=
  ⟨rfl, rfl⟩

/-- C8 amended: every remote attempt of an accepted PDF is a single call
under the fixed folder bookmap/pdfs with use_filename True and
unique_filename False, so the requested remote object name is derived from
the original filename with no uniqueness suffix, and two uploads sharing an
original filename target the same remote name. -/
theorem C8_amended (secure : String → String) (now : String) (req : MPReq)
    (data : List (String × Json)) (fn : String)
    (hp : req.payload = .parsed data) (hv : firstMissing data = none)
    (hf : req.file = some fn) (hfn : (fn == "") = false)
    (ha : allowed_file fn = true) :
    (add_book_with_pdf secure now req).remoteCall = some cloudinaryOpts ∧
    (add_book_with_pdf secure now req).remoteAttempts = 1 ∧
    cloudinaryOpts.folder = "bookmap/pdfs" ∧
    cloudinaryOpts.use_filename = true ∧
    cloudinaryOpts.unique_filename = false := by
  obtain ⟨pl, fl, up⟩ := req
  dsimp only at hp hf
  subst hp; subst hf
  cases up with
  | raised =>
    refine ⟨?_, ?_, rfl, rfl, rfl⟩ <;>
      simp [add_book_with_pdf, hv, hfn, ha, finishInsert_remoteCall, finishInsert_remoteAttempts]
  | ok res =>
    refine ⟨?_, ?_, rfl, rfl, rfl⟩ <;>
      simp [add_book_with_pdf, hv, hfn, ha, finishInsert_remoteCall, finishInsert_remoteAttempts]

/-- Witness for C8 amended at a concrete accepted upload. -/
theorem C8_amended_w :
    (add_book_with_pdf id "1700000000.0"
        ⟨.parsed [("title", Json.str "t"), ("author", Json.str "a"),
          ("locations", Json.arr [Json.null])], some "b.pdf", .raised⟩).remoteCall =
      some cloudinaryOpts ∧
    (add_book_with_pdf id "1700000000.0"
        ⟨.parsed [("title", Json.str "t"), ("author", Json.str "a"),
          ("locations", Json.arr [Json.null])], some "b.pdf", .raised⟩).remoteAttempts = 1 ∧
    cloudinaryOpts.folder = "bookmap/pdfs" ∧
    cloudinaryOpts.use_filename = true ∧
    cloudinaryOpts.unique_filename = false :=
  C8_amended id "1700000000.0"
    ⟨.parsed [("title", Json.str "t"), ("author", Json.str "a"),
      ("locations", Json.arr [Json.null])], some "b.pdf", .raised⟩
    [("title", Json.str "t"), ("author", Json.str "a"),
      ("locations", Json.arr [Json.null])] "b.pdf" rfl rfl rfl rfl rfl

/-- C10: when the remote call returns without raising but its result holds
no secure_url, the handler attaches no pdf_file, performs no local write,
makes exactly one remote attempt, inserts the parsed payload unchanged and
answers 201 success. -/
theorem C10_no_url (secure : String → String) (now : String) (req : MPReq)
    (data : List (String × Json)) (fn : String) (res : List (String × Json))
    (hp : req.payload = .parsed data) (hv : firstMissing data = none)
    (hf : req.file = some fn) (hfn : (fn == "") = false)
    (ha : allowed_file fn = true) (hu : req.upload = .ok res)
    (hurl : dget res "secure_url" = none) :
    add_book_with_pdf secure now req =
      ⟨⟨201, okBody⟩, some (.obj data), some cloudinaryOpts, 1, none⟩ := by
  obtain ⟨pl, fl, up⟩ := req
  dsimp only at hp hf hu
  subst hp; subst hf; subst hu
  simp [add_book_with_pdf, hv, hfn, ha, hurl, finishInsert]

/-- Witness for C10 at a concrete request whose upload result lacks a
secure_url. -/
theorem C10_no_url_w :
    add_book_with_pdf id "123.0"
        ⟨.parsed [("title", Json.str "t"), ("author", Json.str "a"),
          ("locations", Json.arr [Json.null])], some "a.pdf",
         .ok [("public_id", Json.str "x")]⟩ =
      ⟨⟨201, okBody⟩,
       some (.obj [("title", Json.str "t"), ("author", Json.str "a"),
         ("locations", Json.arr [Json.null])]),
       some cloudinaryOpts, 1, none⟩ :=
  C10_no_url id "123.0"
    ⟨.parsed [("title", Json.str "t"), ("author", Json.str "a"),
      ("locations", Json.arr [Json.null])], some "a.pdf",
     .ok [("public_id", Json.str "x")]⟩
    [("title", Json.str "t"), ("author", Json.str "a"),
      ("locations", Json.arr [Json.null])] "a.pdf" [("public_id", Json.str "x")]
    rfl rfl rfl rfl rfl rfl rfl
